import Mathlib

/-!
Verification of the reverse-geocoding repository (src/main.py and
src/reverse-geocoding.py) against its natural-language specification.

The program reads a GeoJSON FeatureCollection, issues one reverse-geocoding
HTTP lookup per feature against a local Nominatim-style service, and writes a
CSV of resolved street addresses.  We shallowly embed the Python code:

* Python values produced by `json.load` / returned by `response.json()` are
  modelled by the inductive type `Json` (numbers as rationals, which carry the
  decimal literals of the input exactly).
* The external HTTP service is an oracle `Request → ServiceReply`; a reply is
  either a connection-level failure (any exception raised by `session.get` or
  while reading the response), a body on which `response.json()` raises, or a
  parsed JSON body.
* Wall-clock measurement (`time.time()` differences) is an oracle
  `BuildingCoord → ℚ` giving the elapsed time observed by each lookup.
* `asyncio.gather` resolves positionally, so the fan-out/gather is a
  positional collection (`gatherExcept`) of per-coordinate results; the order
  in which responses physically arrive only affects the shared cumulative
  counter, which is modelled separately by folding the lock-protected
  additions in an arbitrary completion order (a permutation of the tasks).
* `exit(-1)`, uncaught exceptions and normal termination are the three
  constructors of `RunOutcome`; `RG.main` returns a `RunResult` recording the
  critical log lines, the HTTP requests issued, the CSV rows written and the
  outcome.
-/

/-- Values of the Python objects handled by the program: the output of
`json.load` on the input file and of `response.json()` on a service response.
Numbers are rationals (JSON number literals are finite decimals, which embed
exactly into ℚ). -/
inductive Json where
  | null
  | bool (b : Bool)
  | num (q : ℚ)
  | str (s : String)
  | arr (elems : List Json)
  | obj (fields : List (String × Json))

mutual

/-- Structural equality of `Json` values (Python `==` on the corresponding
objects). -/
def Json.beq : Json → Json → Bool
  | .null, .null => true
  | .bool a, .bool b => a == b
  | .num a, .num b => a == b
  | .str a, .str b => a == b
  | .arr xs, .arr ys => Json.beqList xs ys
  | .obj fs, .obj gs => Json.beqFields fs gs
  | _, _ => false

/-- Elementwise equality of JSON arrays. -/
def Json.beqList : List Json → List Json → Bool
  | [], [] => true
  | x :: xs, y :: ys => Json.beq x y && Json.beqList xs ys
  | _, _ => false

/-- Elementwise equality of JSON object field lists. -/
def Json.beqFields : List (String × Json) → List (String × Json) → Bool
  | [], [] => true
  | (k, v) :: fs, (k2, v2) :: gs =>
      k == k2 && Json.beq v v2 && Json.beqFields fs gs
  | _, _ => false

end

mutual

theorem Json.beq_iff : ∀ a b : Json, Json.beq a b = true ↔ a = b
  | .null, b => by cases b <;> simp [Json.beq]
  | .bool a, b => by cases b <;> simp [Json.beq]
  | .num a, b => by cases b <;> simp [Json.beq]
  | .str a, b => by cases b <;> simp [Json.beq]
  | .arr xs, b => by
      cases b <;> simp [Json.beq]
      exact Json.beqList_iff xs _
  | .obj fs, b => by
      cases b <;> simp [Json.beq]
      exact Json.beqFields_iff fs _

theorem Json.beqList_iff : ∀ xs ys : List Json, Json.beqList xs ys = true ↔ xs = ys
  | [], ys => by cases ys <;> simp [Json.beqList]
  | x :: xs, ys => by
      cases ys with
      | nil => simp [Json.beqList]
      | cons y ys =>
          simp [Json.beqList, Bool.and_eq_true, Json.beq_iff x y,
            Json.beqList_iff xs ys]

theorem Json.beqFields_iff :
    ∀ fs gs : List (String × Json), Json.beqFields fs gs = true ↔ fs = gs
  | [], gs => by cases gs <;> simp [Json.beqFields]
  | (k, v) :: fs, gs => by
      cases gs with
      | nil => simp [Json.beqFields]
      | cons g gs =>
          obtain ⟨k2, v2⟩ := g
          simp [Json.beqFields, Bool.and_eq_true, Json.beq_iff v v2,
            Json.beqFields_iff fs gs, and_assoc]

end

instance : DecidableEq Json := fun a b => decidable_of_iff _ (Json.beq_iff a b)

namespace Json

/-- Python subscripting `j[k]` with a string key: succeeds on a dict having the
key (first binding; Python dict keys are unique), fails (KeyError / TypeError,
an uncaught exception) otherwise. -/
def getKey (j : Json) (k : String) : Option Json :=
  match j with
  | .obj fields => fields.lookup k
  | _ => none

/-- Python subscripting `j[i]` with a non-negative integer index: succeeds on a
list (or string) that is long enough, fails (IndexError / TypeError) otherwise. -/
def getIdx (j : Json) (i : ℕ) : Option Json :=
  match j with
  | .arr elems => elems.get? i
  | .str s => (s.toList.get? i).map fun c => Json.str (String.mk [c])
  | _ => none

/-- Python iteration `for x in j`: a list yields its elements, a dict its keys,
a string its characters; other values raise TypeError. -/
def iterList (j : Json) : Option (List Json) :=
  match j with
  | .arr elems => some elems
  | .obj fields => some (fields.map fun kv => Json.str kv.fst)
  | .str s => some (s.toList.map fun c => Json.str (String.mk [c]))
  | _ => none

end Json

/-- Python `str` applied to the value, as used by `str(coord.latitude)` in the
query parameters and by `csv.writer` on every cell.  Numbers render as their
decimal/rational literal; the rendering of containers is elided (no claim
depends on it). -/
def pyStr : Json → String
  | .null => "None"
  | .bool true => "True"
  | .bool false => "False"
  | .num q => toString q
  | .str s => s
  | .arr _ => "<list>"
  | .obj _ => "<dict>"

/-- BuildingCoord namedtuple: the coordinate and label for a single building
(fields in source order: longitude, latitude, label).  Python namedtuples are
untyped, so every field holds an arbitrary value. -/
structure BuildingCoord where
  longitude : Json
  latitude : Json
  label : Json
deriving DecidableEq

/-- BuildingInfo namedtuple: the street address, coordinate, and label for a
single building (fields in source order: longitude, latitude, street_address,
label). -/
structure BuildingInfo where
  longitude : Json
  latitude : Json
  street_address : Json
  label : Json
deriving DecidableEq

/-- Extracts longitude-latitude coordinates from an input JSON object; embeds
`get_coords` (textually identical in src/main.py and src/reverse-geocoding.py).
Any failing subscript or a non-iterable `features` propagates as an uncaught
exception, modelled by `none`. -/
def get_coords (doc : Json) : Option (List BuildingCoord) := do
  let features ← doc.getKey "features"
  let buildings ← features.iterList
  buildings.mapM fun building => do
    let geometry ← building.getKey "geometry"
    let coordinates ← geometry.getKey "coordinates"
    let longitude ← coordinates.getIdx 0
    let latitude ← coordinates.getIdx 1
    let properties ← building.getKey "properties"
    let label ← properties.getKey "Label"
    pure ⟨longitude, latitude, label⟩

/-- An HTTP GET request as issued via `session.get(url, params=...)`:
the URL and the query parameters in dict insertion order, each value already
rendered to the string aiohttp puts in the query (ints and strs render as
their usual decimal/text form). -/
structure Request where
  url : String
  params : List (String × String)
deriving DecidableEq

/-- Behaviour of the external reverse-geocoding service (and of the network
path to it) for one request.  `netFailure` covers every exception raised by
`session.get` or while receiving the response; `badBody` is a response on
which `response.json()` raises (malformed JSON / wrong content type); `body`
is a successfully parsed JSON body.  aiohttp raises no exception for a non-2xx
status by itself, so a bad status surfaces as `badBody` or as a body without
the expected field. -/
inductive ServiceReply where
  | netFailure
  | badBody
  | body (j : Json)
deriving DecidableEq

/-- The exceptions that can escape one lookup. -/
inductive LookupError where
  | networkError
  | jsonDecodeError
  | missingDisplayName
deriving DecidableEq

/-- The fixed base URL of the reverse-geocoding service (hardcoded in both
source files). -/
def nominatimBaseUrl : String := "http://localhost:8088"

deriving instance DecidableEq for Except

/-- What one call of `get_address` did: the request it issued, the duration it
added to the shared cumulative counter under the lock (none if an exception
fired before the lock section), and its return value or uncaught exception. -/
structure LookupTrace where
  request : Request
  added : Option ℚ
  result : Except LookupError BuildingInfo
deriving DecidableEq

namespace RG

/-- Embeds `get_address` of src/reverse-geocoding.py.  `svc` is the service
oracle and `elapsed coord` the wall-clock duration `time.time() - started`
observed for this lookup.  The lock-protected addition to
`cumulative_lookup_time` happens after the response body is parsed and before
`body["display_name"]` is read, so it also happens when the field is missing. -/
def get_address (svc : Request → ServiceReply) (elapsed : BuildingCoord → ℚ)
    (coord : BuildingCoord) : LookupTrace :=
  let request : Request :=
    { url := "http://localhost:8088/reverse"
      params := [("lat", pyStr coord.latitude), ("lon", pyStr coord.longitude),
                 ("format", "json"), ("zoom", pyStr (Json.num 18))] }
  match svc request with
  | .netFailure => ⟨request, none, .error .networkError⟩
  | .badBody => ⟨request, none, .error .jsonDecodeError⟩
  | .body j =>
      match j.getKey "display_name" with
      | none => ⟨request, some (elapsed coord), .error .missingDisplayName⟩
      | some name =>
          ⟨request, some (elapsed coord),
            .ok ⟨coord.longitude, coord.latitude, name, coord.label⟩⟩

end RG

/-- Embeds `asyncio.gather(*tasks)`: waits for all tasks and collects their
results positionally (output slot i belongs to task i regardless of which
response arrives first); if any task raised, the gather raises instead of
returning a list.  Which of several failures is re-raised depends on
completion timing; no claim distinguishes them, and we propagate the first in
task order. -/
def gatherExcept {ε α : Type} : List (Except ε α) → Except ε (List α)
  | [] => .ok []
  | .error e :: _ => .error e
  | .ok a :: rest => (gatherExcept rest).map (a :: ·)

namespace RG

/-- Embeds `get_addresses` of src/reverse-geocoding.py: one `get_address` task
per coordinate, gathered positionally. -/
def get_addresses (svc : Request → ServiceReply) (elapsed : BuildingCoord → ℚ)
    (coords : List BuildingCoord) : Except LookupError (List BuildingInfo) :=
  gatherExcept (coords.map fun coord => (get_address svc elapsed coord).result)

/-- Final value of the global `cumulative_lookup_time` after a batch, when the
per-lookup critical sections (acquire `cumulative_lookup_lock`; add the
measured duration; release) execute atomically in the given completion order.
The lock makes each addition atomic, so every interleaving of a batch is some
completion order. -/
def finalCumulativeTime (svc : Request → ServiceReply)
    (elapsed : BuildingCoord → ℚ) (completionOrder : List BuildingCoord) : ℚ :=
  completionOrder.foldl
    (fun acc coord =>
      match (get_address svc elapsed coord).added with
      | some d => acc + d
      | none => acc)
    0

end RG

namespace MainPy

/-- Embeds `get_address` of src/main.py: identical request construction and
result, but no timing instrumentation (the return sits inside the response
context manager, which does not change the value). -/
def get_address (svc : Request → ServiceReply) (coord : BuildingCoord) :
    Request × Except LookupError BuildingInfo :=
  let request : Request :=
    { url := "http://localhost:8088/reverse"
      params := [("lat", pyStr coord.latitude), ("lon", pyStr coord.longitude),
                 ("format", "json"), ("zoom", pyStr (Json.num 18))] }
  match svc request with
  | .netFailure => (request, .error .networkError)
  | .badBody => (request, .error .jsonDecodeError)
  | .body j =>
      match j.getKey "display_name" with
      | none => (request, .error .missingDisplayName)
      | some name =>
          (request, .ok ⟨coord.longitude, coord.latitude, name, coord.label⟩)

/-- Embeds `get_addresses` of src/main.py. -/
def get_addresses (svc : Request → ServiceReply) (coords : List BuildingCoord) :
    Except LookupError (List BuildingInfo) :=
  gatherExcept (coords.map fun coord => (get_address svc coord).2)

end MainPy

/-- The header row written by `writer.writerow(["Latitude", "Longitude",
"Street Address", "Label"])`. -/
def csvHeader : List String := ["Latitude", "Longitude", "Street Address", "Label"]

/-- One data row as written by `writer.writerows(buildings)`: `csv.writer`
stringifies the namedtuple cells in FIELD order, i.e. longitude first, then
latitude, then street_address, then label. -/
def csvRow (b : BuildingInfo) : List String :=
  [pyStr b.longitude, pyStr b.latitude, pyStr b.street_address, pyStr b.label]

/-- Uncaught exceptions that can abort a run after argument parsing. -/
inductive CrashError where
  | docStructure
  | lookup (e : LookupError)
  | zeroDivision
deriving DecidableEq

/-- How one process run of src/reverse-geocoding.py ends. -/
inductive RunOutcome where
  | exited (code : Int)
  | crashed (err : CrashError)
  | finished
deriving DecidableEq

/-- The environment one run of `main` executes in: the parsed content of the
input file (`none` models FileNotFoundError on `open(args.filename)`; JSON
decoding of an existing file is out of scope per the spec and the doc arrives
parsed), whether `open(args.output, "w")` succeeds, the service oracle and the
per-lookup wall-clock oracle. -/
structure Env where
  filename : String
  inputFile : Option Json
  outputWritable : Bool
  svc : Request → ServiceReply
  elapsed : BuildingCoord → ℚ

/-- Observable record of one run of `main` in src/reverse-geocoding.py:
critical log lines, HTTP requests issued (one per coordinate, all launched by
the gather), CSV rows written (header first; `none` if the output file was
never successfully opened), the total/unique counts handed to the final
`logging.info` call (computed regardless of log level), and the outcome. -/
structure RunResult where
  criticalLogs : List String
  requestsIssued : List Request
  csvWritten : Option (List (List String))
  reportedCounts : Option (ℕ × ℕ)
  outcome : RunOutcome
deriving DecidableEq

namespace RG

/-- Embeds `main` of src/reverse-geocoding.py (argument parsing and logging
configuration are out of scope; `peakmem` and the wall-clock statistics are
logged but carry no claim).  Steps in source order: open and parse the input
file, `get_coords`, `get_addresses`, open the output file, write header and
rows, compute `unique_addresses`, log statistics — the average-lookup-time
argument divides by `len(buildings)` and raises ZeroDivisionError when the
batch is empty, before the counts line is reached. -/
def main (env : Env) : RunResult :=
  match env.inputFile with
  | none =>
      { criticalLogs := ["File \"" ++ env.filename ++ "\" not found"]
        requestsIssued := []
        csvWritten := none
        reportedCounts := none
        outcome := .exited (-1) }
  | some doc =>
    match get_coords doc with
    | none =>
        { criticalLogs := []
          requestsIssued := []
          csvWritten := none
          reportedCounts := none
          outcome := .crashed .docStructure }
    | some coords =>
      let requests := coords.map fun c => (get_address env.svc env.elapsed c).request
      match get_addresses env.svc env.elapsed coords with
      | .error e =>
          { criticalLogs := []
            requestsIssued := requests
            csvWritten := none
            reportedCounts := none
            outcome := .crashed (.lookup e) }
      | .ok buildings =>
          if env.outputWritable then
            let rows := csvHeader :: buildings.map csvRow
            if buildings.length = 0 then
              { criticalLogs := []
                requestsIssued := requests
                csvWritten := some rows
                reportedCounts := none
                outcome := .crashed .zeroDivision }
            else
              { criticalLogs := []
                requestsIssued := requests
                csvWritten := some rows
                reportedCounts :=
                  some (buildings.length,
                        (buildings.map fun b => b.street_address).dedup.length)
                outcome := .finished }
          else
            { criticalLogs := ["Error creating output file"]
              requestsIssued := requests
              csvWritten := none
              reportedCounts := none
              outcome := .exited (-1) }

end RG

/-- Reads a run of decimal digits into an accumulator; fails on any
non-digit. -/
def parseNatDigits : List Char → ℕ → Option ℕ
  | [], acc => some acc
  | c :: cs, acc =>
      if '0' ≤ c ∧ c ≤ '9' then parseNatDigits cs (10 * acc + (c.toNat - 48))
      else none

/-- Parses one numeric CSV cell (an optionally signed integer literal) back to
a JSON number, as the spec's round-trip test reads the written file before
re-extracting coordinates. -/
def parseNumCell (s : String) : Option Json :=
  match s.toList with
  | [] => none
  | '-' :: rest =>
      if rest = [] then none
      else (parseNatDigits rest 0).map fun n => Json.num (-(n : ℚ))
  | l => (parseNatDigits l 0).map fun n => Json.num (n : ℚ)

/-- Rebuilds a GeoJSON document from the data rows of the output CSV for the
spec's round-trip test, interpreting each column by the written header row:
column 0 is headed "Latitude", column 1 "Longitude", column 3 "Label".
GeoJSON stores point coordinates as the pair [longitude, latitude]. -/
def rebuildDocByHeader (dataRows : List (List String)) : Option Json := do
  let features ← dataRows.mapM fun row => do
    let latCell ← row.get? 0
    let lonCell ← row.get? 1
    let labelCell ← row.get? 3
    let lat ← parseNumCell latCell
    let lon ← parseNumCell lonCell
    pure (Json.obj
      [("geometry", Json.obj [("coordinates", Json.arr [lon, lat])]),
       ("properties", Json.obj [("Label", Json.str labelCell)])])
  pure (Json.obj [("features", Json.arr features)])

theorem gatherExcept_ok_length {ε α : Type} :
    ∀ {l : List (Except ε α)} {out : List α},
      gatherExcept l = .ok out → out.length = l.length
  | [], out, h => by
      simp only [gatherExcept] at h
      cases h
      rfl
  | .error e :: rest, out, h => by
      simp [gatherExcept] at h
  | .ok a :: rest, out, h => by
      simp only [gatherExcept] at h
      cases hrest : gatherExcept rest with
      | error e => rw [hrest] at h; simp [Except.map] at h
      | ok out' =>
          rw [hrest] at h
          simp only [Except.map] at h
          cases h
          simp [gatherExcept_ok_length hrest]

theorem gatherExcept_ok_get {ε α : Type} :
    ∀ {l : List (Except ε α)} {out : List α},
      gatherExcept l = .ok out →
      ∀ (i : ℕ) (hil : i < l.length) (hio : i < out.length),
        l.get ⟨i, hil⟩ = .ok (out.get ⟨i, hio⟩)
  | [], out, h, i, hil, hio => by cases hil
  | .error e :: rest, out, h, i, hil, hio => by
      simp [gatherExcept] at h
  | .ok a :: rest, out, h, i, hil, hio => by
      simp only [gatherExcept] at h
      cases hrest : gatherExcept rest with
      | error e => rw [hrest] at h; simp [Except.map] at h
      | ok out' =>
          rw [hrest] at h
          simp only [Except.map] at h
          cases h
          cases i with
          | zero => rfl
          | succ n =>
              exact gatherExcept_ok_get hrest n (Nat.lt_of_succ_lt_succ hil)
                (Nat.lt_of_succ_lt_succ hio)

theorem RG.get_address_result_ok {svc : Request → ServiceReply}
    {elapsed : BuildingCoord → ℚ} {coord : BuildingCoord} {b : BuildingInfo}
    (h : (RG.get_address svc elapsed coord).result = .ok b) :
    b.longitude = coord.longitude ∧ b.latitude = coord.latitude ∧
      b.label = coord.label := by
  unfold RG.get_address at h
  simp only at h
  split at h
  · simp at h
  · simp at h
  · split at h
    · simp at h
    · simp only at h
      cases h
      exact ⟨rfl, rfl, rfl⟩

/-- C1: for every input list of N coordinate records, the fan-out/gather
(get_addresses) returns exactly N resolved records, and the i-th output record
has the same label, longitude and latitude as the i-th input record — order
preservation despite concurrent requests (asyncio.gather collects
positionally, so arrival order cannot permute the output). -/
theorem claim_C1_fanout_gather_preserves_order (svc : Request → ServiceReply)
    (elapsed : BuildingCoord → ℚ) (coords : List BuildingCoord)
    (out : List BuildingInfo)
    (h : RG.get_addresses svc elapsed coords = .ok out) :
    out.length = coords.length ∧
    ∀ (i : ℕ) (hio : i < out.length) (hic : i < coords.length),
      (out.get ⟨i, hio⟩).label = (coords.get ⟨i, hic⟩).label ∧
      (out.get ⟨i, hio⟩).longitude = (coords.get ⟨i, hic⟩).longitude ∧
      (out.get ⟨i, hio⟩).latitude = (coords.get ⟨i, hic⟩).latitude := by
  unfold RG.get_addresses at h
  have hlen : out.length = coords.length := by
    have := gatherExcept_ok_length h
    simpa using this
  refine ⟨hlen, fun i hio hic => ?_⟩
  have hil : i < (coords.map fun coord =>
      (RG.get_address svc elapsed coord).result).length := by
    simpa using hic
  have hget := gatherExcept_ok_get h i hil hio
  simp only [List.get_eq_getElem, List.getElem_map] at hget
  have := RG.get_address_result_ok hget
  exact ⟨this.2.2, this.1, this.2.1⟩

/-- A service oracle answering every request with a fixed display_name body. -/
def svcFixed (name : String) : Request → ServiceReply :=
  fun _ => .body (Json.obj [("display_name", Json.str name)])

/-- A service oracle that picks the display_name by the request's `lat` query
parameter (a mock service giving different answers per coordinate). -/
def svcByLat (table : List (String × String)) : Request → ServiceReply :=
  fun r =>
    match r.params.lookup "lat" with
    | none => .netFailure
    | some latv =>
        match table.lookup latv with
        | none => .netFailure
        | some name => .body (Json.obj [("display_name", Json.str name)])

/-- A concrete coordinate record used by witnesses: longitude 10, latitude 20,
label "L". -/
def coordW : BuildingCoord := ⟨Json.num 10, Json.num 20, Json.str "L"⟩

/-- A constant one-second wall clock for witnesses. -/
def elapsedW : BuildingCoord → ℚ := fun _ => 1

/-- The resolved record the witness batch produces. -/
def outW : List BuildingInfo :=
  [⟨Json.num 10, Json.num 20, Json.str "A", Json.str "L"⟩]

/-- Witness for C1: a concrete one-element batch against a service answering
"A" resolves to one record with the input's longitude, latitude and label. -/
theorem claim_C1_fanout_gather_preserves_order_witness :
    RG.get_addresses (svcFixed "A") elapsedW [coordW] = .ok outW ∧
    (outW.length = [coordW].length ∧
     ∀ (i : ℕ) (hio : i < outW.length) (hic : i < [coordW].length),
       (outW.get ⟨i, hio⟩).label = ([coordW].get ⟨i, hic⟩).label ∧
       (outW.get ⟨i, hio⟩).longitude = ([coordW].get ⟨i, hic⟩).longitude ∧
       (outW.get ⟨i, hio⟩).latitude = ([coordW].get ⟨i, hic⟩).latitude) := by
  have h : RG.get_addresses (svcFixed "A") elapsedW [coordW] = .ok outW := by
    decide
  exact ⟨h,
    claim_C1_fanout_gather_preserves_order (svcFixed "A") elapsedW [coordW] outW h⟩

theorem pyStr_num18 : pyStr (Json.num 18) = "18" := by decide

theorem nominatimBaseUrl_reverse :
    nominatimBaseUrl ++ "/reverse" = "http://localhost:8088/reverse" := by decide

/-- C7: every lookup issues its HTTP GET to the fixed base URL plus "/reverse"
with exactly the query parameters lat and lon equal to the decimal-string
renderings of the record's latitude and longitude, format equal to json, and
zoom equal to 18 (the integer 18 renders as "18" in the query). -/
theorem claim_C7_request_url_and_parameters (svc : Request → ServiceReply)
    (elapsed : BuildingCoord → ℚ) (coord : BuildingCoord) :
    (RG.get_address svc elapsed coord).request =
      { url := nominatimBaseUrl ++ "/reverse"
        params := [("lat", pyStr coord.latitude), ("lon", pyStr coord.longitude),
                   ("format", "json"), ("zoom", "18")] } := by
  rw [nominatimBaseUrl_reverse, ← pyStr_num18]
  unfold RG.get_address
  simp only
  split
  · rfl
  · rfl
  · split
    · rfl
    · rfl

/-- C10: the two source files are behaviorally equivalent at the fan-out/gather
interface — for every coordinate and every service behaviour, get_address in
src/main.py issues the same request and returns the same value (or raises the
same error) as get_address in src/reverse-geocoding.py, and the two
get_addresses return the same ordered list; the timing instrumentation does
not change the returned values. -/
theorem claim_C10_main_py_equivalent_to_rg (svc : Request → ServiceReply)
    (elapsed : BuildingCoord → ℚ) :
    (∀ coord : BuildingCoord,
        MainPy.get_address svc coord =
          ((RG.get_address svc elapsed coord).request,
           (RG.get_address svc elapsed coord).result)) ∧
    (∀ coords : List BuildingCoord,
        MainPy.get_addresses svc coords = RG.get_addresses svc elapsed coords) := by
  have hpoint : ∀ coord : BuildingCoord,
      MainPy.get_address svc coord =
        ((RG.get_address svc elapsed coord).request,
         (RG.get_address svc elapsed coord).result) := by
    intro coord
    unfold MainPy.get_address RG.get_address
    simp only
    split
    · rfl
    · rfl
    · split
      · rfl
      · rfl
  refine ⟨hpoint, fun coords => ?_⟩
  have hfun : (fun coord => (MainPy.get_address svc coord).2)
      = fun coord => (RG.get_address svc elapsed coord).result :=
    funext fun coord => congrArg Prod.snd (hpoint coord)
  unfold MainPy.get_addresses RG.get_addresses
  rw [hfun]

theorem RG.foldl_added_eq_sum (svc : Request → ServiceReply)
    (elapsed : BuildingCoord → ℚ) :
    ∀ (l : List BuildingCoord) (init : ℚ),
      (∀ c ∈ l, (RG.get_address svc elapsed c).added = some (elapsed c)) →
      l.foldl
        (fun acc coord =>
          match (RG.get_address svc elapsed coord).added with
          | some d => acc + d
          | none => acc)
        init = init + (l.map elapsed).sum
  | [], init, _ => by simp
  | c :: cs, init, hall => by
      simp only [List.foldl_cons]
      rw [hall c (List.mem_cons_self c cs)]
      rw [RG.foldl_added_eq_sum svc elapsed cs (init + elapsed c)
        (fun x hx => hall x (List.mem_cons_of_mem c hx))]
      simp only [List.map_cons, List.sum_cons]
      ring

/-- C6: after a batch of N concurrent lookups with measured durations d_i, the
cumulative lookup time counter equals the sum of all d_i, whatever order the
lock-protected critical sections run in — no addition is lost, because each
one executes atomically under the mutual-exclusion lock.  A completion order
is any permutation of the batch. -/
theorem claim_C6_cumulative_time_no_lost_updates (svc : Request → ServiceReply)
    (elapsed : BuildingCoord → ℚ)
    (coords completionOrder : List BuildingCoord)
    (hperm : completionOrder.Perm coords)
    (hdone : ∀ c ∈ coords,
      (RG.get_address svc elapsed c).added = some (elapsed c)) :
    RG.finalCumulativeTime svc elapsed completionOrder =
      (coords.map elapsed).sum := by
  have hdone' : ∀ c ∈ completionOrder,
      (RG.get_address svc elapsed c).added = some (elapsed c) :=
    fun c hc => hdone c (hperm.mem_iff.mp hc)
  unfold RG.finalCumulativeTime
  rw [RG.foldl_added_eq_sum svc elapsed completionOrder 0 hdone']
  rw [zero_add]
  exact (hperm.map elapsed).sum_eq

/-- A second concrete coordinate record for the two-lookup witnesses. -/
def coordB : BuildingCoord := ⟨Json.num 3, Json.num 4, Json.str "M"⟩

/-- Witness for C6: two lookups of one second each, completing in reversed
order, leave the counter at 2 = 1 + 1. -/
theorem claim_C6_cumulative_time_no_lost_updates_witness :
    [coordB, coordW].Perm [coordW, coordB] ∧
    (∀ c ∈ [coordW, coordB],
      (RG.get_address (svcFixed "A") elapsedW c).added = some (elapsedW c)) ∧
    RG.finalCumulativeTime (svcFixed "A") elapsedW [coordB, coordW] =
      ([coordW, coordB].map elapsedW).sum ∧
    ([coordW, coordB].map elapsedW).sum = 2 := by
  refine ⟨by decide, ?_, ?_, by simp [elapsedW]; norm_num⟩
  · intro c _
    simp [RG.get_address, svcFixed, Json.getKey]
  · exact claim_C6_cumulative_time_no_lost_updates (svcFixed "A") elapsedW
      [coordW, coordB] [coordB, coordW] (by decide)
      (fun c _ => by simp [RG.get_address, svcFixed, Json.getKey])

theorem gatherExcept_error_of_mem {ε α : Type} {l : List (Except ε α)} {e : ε}
    (h : Except.error e ∈ l) : ∃ e2, gatherExcept l = .error e2 := by
  induction l with
  | nil => cases h
  | cons x rest ih =>
      cases x with
      | error e0 => exact ⟨e0, rfl⟩
      | ok a =>
          rcases List.mem_cons.mp h with h1 | h2
          · simp at h1
          · obtain ⟨e2, he2⟩ := ih h2
            exact ⟨e2, by simp [gatherExcept, he2, Except.map]⟩

/-- C4: if at least one individual lookup fails (network error, undecodable
body, or missing display_name — aiohttp raises no exception for a bad HTTP
status by itself, so a bad status surfaces as one of these), the whole batch
fails: the error propagates uncaught out of the fan-out/gather, no partial
list of resolved records is returned, the run crashes, and no CSV data is
written (the output file is never even opened). -/
theorem claim_C4_single_failure_aborts_batch (env : Env) (doc : Json)
    (coords : List BuildingCoord) (c : BuildingCoord) (e : LookupError)
    (hdoc : env.inputFile = some doc)
    (hcoords : get_coords doc = some coords)
    (hmem : c ∈ coords)
    (hfail : (RG.get_address env.svc env.elapsed c).result = .error e) :
    ∃ e2, RG.get_addresses env.svc env.elapsed coords = .error e2 ∧
      (RG.main env).outcome = .crashed (.lookup e2) ∧
      (RG.main env).csvWritten = none ∧
      (RG.main env).reportedCounts = none := by
  have hmem2 : Except.error e ∈ coords.map
      (fun coord => (RG.get_address env.svc env.elapsed coord).result) :=
    List.mem_map.mpr ⟨c, hmem, hfail⟩
  obtain ⟨e2, he2⟩ := gatherExcept_error_of_mem hmem2
  have hga : RG.get_addresses env.svc env.elapsed coords = .error e2 := he2
  refine ⟨e2, hga, ?_, ?_, ?_⟩ <;>
    · unfold RG.main
      rw [hdoc]
      simp only [hcoords, hga]

/-- Builds one GeoJSON feature with point coordinates [longitude, latitude]
and the given Label property. -/
def mkFeature (lon lat : ℚ) (label : String) : Json :=
  Json.obj
    [("geometry", Json.obj [("coordinates", Json.arr [Json.num lon, Json.num lat])]),
     ("properties", Json.obj [("Label", Json.str label)])]

/-- Builds a GeoJSON FeatureCollection document from a feature list. -/
def mkDoc (features : List Json) : Json :=
  Json.obj [("features", Json.arr features)]

/-- A run environment whose only lookup hits a network failure. -/
def envNetFail : Env :=
  ⟨"input.geojson", some (mkDoc [mkFeature 10 20 "L"]), true,
   fun _ => .netFailure, elapsedW⟩

/-- Witness for C4: a one-element batch whose only lookup hits a network
failure crashes the run with no CSV. -/
theorem claim_C4_single_failure_aborts_batch_witness :
    envNetFail.inputFile = some (mkDoc [mkFeature 10 20 "L"]) ∧
    get_coords (mkDoc [mkFeature 10 20 "L"]) = some [coordW] ∧
    coordW ∈ [coordW] ∧
    (RG.get_address envNetFail.svc envNetFail.elapsed coordW).result =
      .error .networkError ∧
    ∃ e2, RG.get_addresses envNetFail.svc envNetFail.elapsed [coordW] = .error e2 ∧
      (RG.main envNetFail).outcome = .crashed (.lookup e2) ∧
      (RG.main envNetFail).csvWritten = none ∧
      (RG.main envNetFail).reportedCounts = none := by
  refine ⟨rfl, by decide, by decide, by decide, ?_⟩
  exact claim_C4_single_failure_aborts_batch envNetFail
    (mkDoc [mkFeature 10 20 "L"]) [coordW] coordW .networkError rfl
    (by decide) (by decide) (by decide)

/-- C5: a run whose input file does not exist logs a critical message and
terminates with exit code -1 before issuing any network request; a run whose
output file cannot be created logs a critical message and terminates with exit
code -1 (after the lookups, which precede the output `open` in the source). -/
theorem claim_C5_fatal_file_errors_exit (env : Env) :
    (env.inputFile = none →
      RG.main env =
        { criticalLogs := ["File \"" ++ env.filename ++ "\" not found"]
          requestsIssued := []
          csvWritten := none
          reportedCounts := none
          outcome := .exited (-1) }) ∧
    (∀ (doc : Json) (coords : List BuildingCoord) (out : List BuildingInfo),
      env.inputFile = some doc →
      get_coords doc = some coords →
      RG.get_addresses env.svc env.elapsed coords = .ok out →
      env.outputWritable = false →
      (RG.main env).criticalLogs = ["Error creating output file"] ∧
      (RG.main env).csvWritten = none ∧
      (RG.main env).outcome = .exited (-1)) := by
  constructor
  · intro h
    unfold RG.main
    rw [h]
  · intro doc coords out hdoc hcoords hout hw
    refine ⟨?_, ?_, ?_⟩ <;>
      · unfold RG.main
        rw [hdoc]
        simp only [hcoords, hout, hw]
        simp

/-- Environment fixtures for the witnesses. -/
def envMissing : Env :=
  ⟨"missing.geojson", none, true, svcFixed "A", elapsedW⟩

def envNoOutput : Env :=
  ⟨"input.geojson", some (mkDoc [mkFeature 10 20 "L"]), false, svcFixed "A", elapsedW⟩

/-- Witness for C5: a missing input file yields the critical log, no requests,
no CSV and exit code -1; an unwritable output path yields its critical log and
exit code -1. -/
theorem claim_C5_fatal_file_errors_exit_witness :
    (envMissing.inputFile = none ∧
     RG.main envMissing =
       { criticalLogs := ["File \"missing.geojson\" not found"]
         requestsIssued := []
         csvWritten := none
         reportedCounts := none
         outcome := .exited (-1) }) ∧
    (envNoOutput.inputFile = some (mkDoc [mkFeature 10 20 "L"]) ∧
     get_coords (mkDoc [mkFeature 10 20 "L"]) = some [coordW] ∧
     RG.get_addresses envNoOutput.svc envNoOutput.elapsed [coordW] = .ok outW ∧
     envNoOutput.outputWritable = false ∧
     (RG.main envNoOutput).criticalLogs = ["Error creating output file"] ∧
     (RG.main envNoOutput).csvWritten = none ∧
     (RG.main envNoOutput).outcome = .exited (-1)) := by
  constructor
  · exact ⟨rfl, (claim_C5_fatal_file_errors_exit envMissing).1 rfl⟩
  · refine ⟨rfl, by decide, by decide, rfl, ?_⟩
    have h := (claim_C5_fatal_file_errors_exit envNoOutput).2
      (mkDoc [mkFeature 10 20 "L"]) [coordW] outW rfl (by decide) (by decide) rfl
    exact ⟨h.1, h.2.1, h.2.2⟩

/-- C8: on a successful run the reported total count is the number of resolved
records and the reported unique-address count is the number of distinct
street-address values among them (the source computes
`len(set(street_address))`, which is the cardinality of the set of distinct
values); the CSV holds one data row per resolved record in input order. -/
theorem claim_C8_total_and_unique_counts (env : Env) (doc : Json)
    (coords : List BuildingCoord) (out : List BuildingInfo)
    (hdoc : env.inputFile = some doc)
    (hcoords : get_coords doc = some coords)
    (hout : RG.get_addresses env.svc env.elapsed coords = .ok out)
    (hw : env.outputWritable = true)
    (hne : out ≠ []) :
    (RG.main env).csvWritten = some (csvHeader :: out.map csvRow) ∧
    (RG.main env).reportedCounts =
      some (out.length, ((out.map fun b => b.street_address).toFinset).card) := by
  have hlen : ¬ out.length = 0 := by
    simpa [List.length_eq_zero] using hne
  constructor <;>
    · unfold RG.main
      rw [hdoc]
      simp [hcoords, hout, hw, hlen, List.card_toFinset]

/-- The spec's three-feature scenario document. -/
def docScenario : Json :=
  mkDoc [mkFeature 1 2 "A", mkFeature 3 4 "B", mkFeature 5 6 "C"]

/-- The coordinate records extracted from the scenario document. -/
def coordsScenario : List BuildingCoord :=
  [⟨Json.num 1, Json.num 2, Json.str "A"⟩,
   ⟨Json.num 3, Json.num 4, Json.str "B"⟩,
   ⟨Json.num 5, Json.num 6, Json.str "C"⟩]

/-- The mock service table of the spec's scenario: display names keyed by the
`lat` query parameter of the three features. -/
def addrTable : List (String × String) :=
  [("2", "123 Main St"), ("4", "456 Oak Ave"), ("6", "456 Oak Ave")]

/-- The run environment of the spec's scenario. -/
def envScenario : Env :=
  ⟨"input.geojson", some docScenario, true, svcByLat addrTable, elapsedW⟩

/-- The resolved records of the spec's scenario. -/
def outScenario : List BuildingInfo :=
  [⟨Json.num 1, Json.num 2, Json.str "123 Main St", Json.str "A"⟩,
   ⟨Json.num 3, Json.num 4, Json.str "456 Oak Ave", Json.str "B"⟩,
   ⟨Json.num 5, Json.num 6, Json.str "456 Oak Ave", Json.str "C"⟩]

/-- Witness for C8: three features resolving to "123 Main St", "456 Oak Ave",
"456 Oak Ave" give a CSV with 3 data rows in input order and reported counts
(3 total, 2 unique). -/
theorem claim_C8_total_and_unique_counts_witness :
    envScenario.inputFile = some docScenario ∧
    get_coords docScenario = some coordsScenario ∧
    RG.get_addresses envScenario.svc envScenario.elapsed coordsScenario =
      .ok outScenario ∧
    envScenario.outputWritable = true ∧
    outScenario ≠ [] ∧
    outScenario.length = 3 ∧
    ((outScenario.map fun b => b.street_address).toFinset).card = 2 ∧
    (RG.main envScenario).csvWritten =
      some (csvHeader :: outScenario.map csvRow) ∧
    (RG.main envScenario).reportedCounts = some (3, 2) := by
  have h := claim_C8_total_and_unique_counts envScenario docScenario
    coordsScenario outScenario rfl (by decide) (by decide) rfl (by decide)
  refine ⟨rfl, by decide, by decide, rfl, by decide, by decide, by decide,
    h.1, ?_⟩
  rw [h.2]
  decide

/-- C9: the average-lookup-time expression divides the cumulative counter by
`len(buildings)` with no zero guard, so the logging stage is well-defined only
when at least one feature was resolved; on an input FeatureCollection with
zero features the run raises ZeroDivisionError after having already written
the header-only CSV (the crash happens at the logging call computing the
average, which runs after the CSV block), while a successful nonempty batch
finishes normally. -/
theorem claim_C9_average_requires_nonempty (env : Env) (doc : Json)
    (hdoc : env.inputFile = some doc)
    (hw : env.outputWritable = true) :
    (get_coords doc = some [] →
      (RG.main env).csvWritten = some [csvHeader] ∧
      (RG.main env).outcome = .crashed .zeroDivision) ∧
    (∀ (coords : List BuildingCoord) (out : List BuildingInfo),
      get_coords doc = some coords →
      RG.get_addresses env.svc env.elapsed coords = .ok out →
      out ≠ [] →
      (RG.main env).outcome = .finished) := by
  constructor
  · intro hcoords
    constructor <;>
      · unfold RG.main
        rw [hdoc]
        simp [hcoords, RG.get_addresses, gatherExcept, hw]
  · intro coords out hcoords hout hne
    have hlen : ¬ out.length = 0 := by
      simpa [List.length_eq_zero] using hne
    unfold RG.main
    rw [hdoc]
    simp [hcoords, hout, hw, hlen]

/-- A run environment whose input document has an empty feature list. -/
def envEmpty : Env :=
  ⟨"input.geojson", some (mkDoc []), true, svcFixed "A", elapsedW⟩

/-- The run environment of the single-feature counterexample: longitude 10,
latitude 20, label "L", service display_name "A". -/
def env2 : Env :=
  ⟨"input.geojson", some (mkDoc [mkFeature 10 20 "L"]), true, svcFixed "A",
   elapsedW⟩

/-- Witness for C9: the empty FeatureCollection leaves a header-only CSV and
crashes with a division by zero, while a one-feature run finishes normally. -/
theorem claim_C9_average_requires_nonempty_witness :
    envEmpty.inputFile = some (mkDoc []) ∧
    envEmpty.outputWritable = true ∧
    get_coords (mkDoc []) = some [] ∧
    ((RG.main envEmpty).csvWritten = some [csvHeader] ∧
     (RG.main envEmpty).outcome = .crashed .zeroDivision) ∧
    env2.inputFile = some (mkDoc [mkFeature 10 20 "L"]) ∧
    get_coords (mkDoc [mkFeature 10 20 "L"]) = some [coordW] ∧
    RG.get_addresses env2.svc env2.elapsed [coordW] = .ok outW ∧
    (RG.main env2).outcome = .finished := by
  refine ⟨rfl, rfl, by decide, ?_, rfl, by decide, by decide, ?_⟩
  · exact (claim_C9_average_requires_nonempty envEmpty (mkDoc []) rfl rfl).1
      (by decide)
  · exact (claim_C9_average_requires_nonempty env2
      (mkDoc [mkFeature 10 20 "L"]) rfl rfl).2 [coordW] outW (by decide)
      (by decide) (by decide)

/-- C2 refuted (code bug): the run writes the header row "Latitude, Longitude,
Street Address, Label" but each data row carries the BuildingInfo namedtuple
in FIELD order — longitude, latitude, street_address, label.  For the feature
with longitude 10 and latitude 20 the written data row is
["10", "20", "A", "L"], while the claim (and the header the code itself
writes) demands latitude first, ["20", "10", "A", "L"]. -/
theorem claim_C2_csv_row_order_code_bug :
    get_coords (mkDoc [mkFeature 10 20 "L"]) =
      some [⟨Json.num 10, Json.num 20, Json.str "L"⟩] ∧
    (RG.main env2).csvWritten =
      some [["Latitude", "Longitude", "Street Address", "Label"],
            ["10", "20", "A", "L"]] ∧
    ["10", "20", "A", "L"] ≠ ["20", "10", "A", "L"] := by
  exact ⟨by decide, by decide, by decide⟩

/-- C3 refuted (code bug, same root cause as C2): reading the output CSV's
(Latitude, Longitude) column pairs by the written header and feeding them back
through the extraction logic (GeoJSON coordinates = [longitude, latitude])
returns the coordinates swapped, because the data rows hold longitude under
the "Latitude" header: the single feature (longitude 10, latitude 20)
re-extracts as (longitude 20, latitude 10). -/
theorem claim_C3_roundtrip_code_bug :
    get_coords (mkDoc [mkFeature 10 20 "L"]) =
      some [⟨Json.num 10, Json.num 20, Json.str "L"⟩] ∧
    (RG.main env2).csvWritten =
      some [csvHeader, ["10", "20", "A", "L"]] ∧
    (rebuildDocByHeader [["10", "20", "A", "L"]]).bind get_coords =
      some [⟨Json.num 20, Json.num 10, Json.str "L"⟩] ∧
    ([(⟨Json.num 20, Json.num 10, Json.str "L"⟩ : BuildingCoord)] ≠
      [⟨Json.num 10, Json.num 20, Json.str "L"⟩]) := by
  exact ⟨by decide, by decide, by decide, by decide⟩
